import Mathlib

/-!
Verification of the `papers_scrapper` spiders (`ndss.py`, `osdi.py`, `usenix.py`)
against their natural-language specification.

Each fetched page is embedded as a record of the exact selector results the
handler reads (an oracle for the XPath queries that appear in the source);
each `parse_*` handler is embedded as a function from such a page (plus any
carried context) to an `Except`-wrapped result, where `Except.error` marks the
points at which the corresponding Python expression would raise (string
operations applied to a possibly-`None` selector result).  String operations
are implemented structurally over `List Char` so that all definitions evaluate
inside the kernel.
-/

/-! ## String primitives (structural, kernel-evaluable) -/

/-- Python truthiness of a string: non-empty. -/
def truthyStr (s : String) : Bool := s != ""

/-- Python truthiness of an optional selector result (`.get()`):
`None` and the empty string are falsy. -/
def truthyOpt : Option String → Bool
  | none => false
  | some s => truthyStr s

/-- Prefix test on character lists (structural `List.isPrefixOf`). -/
def strStarts (p s : String) : Bool := p.data.isPrefixOf s.data

/-- Drop the first `n` characters of a string. -/
def strDrop (s : String) (n : Nat) : String := ⟨s.data.drop n⟩

/-- Models Python `str.strip()`: remove leading and trailing whitespace. -/
def pyStrip (s : String) : String :=
  ⟨((s.data.dropWhile Char.isWhitespace).reverse.dropWhile Char.isWhitespace).reverse⟩

/-- Fuel-indexed worker for `pyReplace` (structural recursion on the fuel). -/
def pyReplaceAux (pat repl : List Char) : Nat → List Char → List Char
  | 0, l => l
  | _ + 1, [] => []
  | fuel + 1, c :: cs =>
    if pat.isPrefixOf (c :: cs) then
      repl ++ pyReplaceAux pat repl fuel (List.drop (pat.length - 1) cs)
    else
      c :: pyReplaceAux pat repl fuel cs

/-- Models Python `str.replace(pat, repl)`: replaces every occurrence of
`pat`, scanning left to right. -/
def pyReplace (s pat repl : String) : String :=
  ⟨pyReplaceAux pat.data repl.data s.data.length s.data⟩

/-- Collapse consecutive space characters to a single space. -/
def dedupSpaces : List Char → List Char
  | [] => []
  | [c] => [c]
  | a :: b :: rest =>
    if a = ' ' && b = ' ' then dedupSpaces (b :: rest)
    else a :: dedupSpaces (b :: rest)

/-- Character membership in a string. -/
def charIn (c : Char) (s : String) : Bool := s.data.contains c

/-! ## Helpers of the external collaborators, modelled from the spec -/

/-- Modelled from the spec: `BaseSpider.clean_html_tags`
(`base_spider.py` is not among the provided sources).  Per §3/§4.1 it strips
HTML markup from a text fragment; embedded as removal of every `<...>` run. -/
def stripTagsAux : Bool → List Char → List Char
  | _, [] => []
  | true, c :: cs => if c = '>' then stripTagsAux false cs else stripTagsAux true cs
  | false, c :: cs => if c = '<' then stripTagsAux true cs else c :: stripTagsAux false cs

/-- Modelled from the spec: `BaseSpider.clean_html_tags` (see `stripTagsAux`). -/
def clean_html_tags (s : String) : String := ⟨stripTagsAux false s.data⟩

/-- Modelled from the spec: `BaseSpider.clean_extra_whitespaces`
(`base_spider.py` is not among the provided sources).  Per §3 it normalizes
whitespace: every whitespace character becomes a space, runs collapse to a
single space, and surrounding whitespace is stripped. -/
def clean_extra_whitespaces (s : String) : String :=
  pyStrip ⟨dedupSpaces (s.data.map (fun c => if c.isWhitespace then ' ' else c))⟩

/-- Modelled from the spec: `BaseSpider.clean_quotes`
(`base_spider.py` is not among the provided sources).  Per §4.2 it normalizes
curly quotes to straight quotes. -/
def clean_quotes (s : String) : String :=
  ⟨s.data.map (fun c =>
    if c = '“' ∨ c = '”' then '"'
    else if c = '‘' ∨ c = '’' then '\''
    else c)⟩

/-- Modelled from the spec: the external framework's markup-to-plain-text
flattening of an embedded HTML fragment
(`scrapy.Selector(text=h).xpath(STRING_FN).get()`, spec §6): the text content
of the fragment with all tags removed. -/
def selectorStringOf (s : String) : String := ⟨stripTagsAux false s.data⟩

/-- True when `s` is an absolute `http(s)` URL.  The embedding restricts
URL-scheme recognition to the two schemes the scraped sites use. -/
def isHttpAbsolute (s : String) : Bool :=
  strStarts "http://" s || strStarts "https://" s

/-- Scheme of an absolute `http(s)` URL, or `""`. -/
def schemeOf (s : String) : String :=
  if strStarts "https://" s then "https"
  else if strStarts "http://" s then "http"
  else ""

/-- Characters of the host part: everything up to the first slash. -/
def takeUntilSlashStr (s : String) : String := ⟨s.data.takeWhile (fun c => c ≠ '/')⟩

/-- Everything up to and including the last slash, or the whole string
followed by a slash when it contains none. -/
def upToLastSlash (s : String) : String :=
  if s.data.contains '/' then ⟨(s.data.reverse.dropWhile (fun c => c ≠ '/')).reverse⟩
  else s ++ "/"

/-- Scheme and host of an absolute `http(s)` URL (`"https://host"`), or `""`. -/
def schemeHostOf (s : String) : String :=
  if strStarts "https://" s then "https://" ++ takeUntilSlashStr (strDrop s 8)
  else if strStarts "http://" s then "http://" ++ takeUntilSlashStr (strDrop s 7)
  else ""

/-- Base URL up to and including the last slash of its path. -/
def dirOf (s : String) : String :=
  if strStarts "https://" s then "https://" ++ upToLastSlash (strDrop s 8)
  else if strStarts "http://" s then "http://" ++ upToLastSlash (strDrop s 7)
  else upToLastSlash s

/-- Modelled from the spec: the external framework's relative-URL resolution
(`response.urljoin` / `response.follow`, spec §3 and §4.4: links are resolved
against the fetched page's URL when relative).  Restricted to the `http(s)`
cases the scraped sites exercise: an empty link resolves to the base, an
absolute link stands, a protocol-relative link inherits the base's scheme, a
root-relative link is resolved against the base's host, and any other link is
resolved against the base's directory. -/
def urljoin (base rel : String) : String :=
  if rel = "" then base
  else if isHttpAbsolute rel then rel
  else if strStarts "//" rel then
    (if schemeOf base = "" then rel else (schemeOf base ++ "://") ++ strDrop rel 2)
  else if strStarts "/" rel then schemeHostOf base ++ rel
  else dirOf base ++ rel

/-! ## Output record, logs, stage results -/

/-- Tag stored in a record's `source_url` field: the source writes either an
integer constant or a string there. -/
inductive SourceTag where
  | int (n : Nat)
  | str (s : String)
deriving DecidableEq

/-- Modelled from the spec: the Paper Record (`PdfFilesItem`, `items.py` is
not among the provided sources).  Per §3 it has the seven textual fields
below, with `file_urls` a sequence and `source_url` an integer-or-string tag. -/
structure PdfFilesItem where
  title : String
  authors : String
  abstract : String
  abstract_url : String
  pdf_url : String
  file_urls : List String
  source_url : SourceTag
deriving DecidableEq

/-- Severity of a log line. -/
inductive LogLevel where
  | debug | info | warning | error
deriving DecidableEq, BEq

/-- One log line emitted by a handler. -/
structure LogEntry where
  level : LogLevel
  msg : String
deriving DecidableEq

def logD (m : String) : LogEntry := ⟨LogLevel.debug, m⟩
def logI (m : String) : LogEntry := ⟨LogLevel.info, m⟩
def logW (m : String) : LogEntry := ⟨LogLevel.warning, m⟩
def logE (m : String) : LogEntry := ⟨LogLevel.error, m⟩

/-- A handler's yield: either a follow-up fetch request (payload `ρ` is the
spider-specific request shape) or a finalized record. -/
inductive SOut (ρ : Type) where
  | req (r : ρ)
  | item (it : PdfFilesItem)
deriving DecidableEq

/-- Result of running one handler on one fetched page: the yielded stream
plus the log lines produced along the way. -/
structure StageRes (ρ : Type) where
  outs : List (SOut ρ)
  logs : List LogEntry
deriving DecidableEq

/-- The yielded stream of a handler run (empty when the run raised). -/
def outsOf {ρ : Type} : Except String (StageRes ρ) → List (SOut ρ)
  | Except.ok r => r.outs
  | Except.error _ => []

/-- The log lines of a handler run (empty when the run raised). -/
def logsOf {ρ : Type} : Except String (StageRes ρ) → List LogEntry
  | Except.ok r => r.logs
  | Except.error _ => []

/-- The finalized records among a handler run's yields. -/
def itemsOf {ρ : Type} (e : Except String (StageRes ρ)) : List PdfFilesItem :=
  (outsOf e).filterMap (fun o => match o with
    | SOut.item it => some it
    | SOut.req _ => none)

/-- The follow-up requests among a handler run's yields. -/
def reqsOf {ρ : Type} (e : Except String (StageRes ρ)) : List ρ :=
  (outsOf e).filterMap (fun o => match o with
    | SOut.item _ => none
    | SOut.req r => some r)

/-- True when the handler run completed without raising. -/
def exceptOk {ε α : Type} : Except ε α → Bool
  | Except.ok _ => true
  | Except.error _ => false

/-- True when some log line of the list has error severity. -/
def hasErrorLog (logs : List LogEntry) : Bool :=
  logs.any (fun e => e.level == LogLevel.error)

/-! ## Spider construction (shared adapter contract) -/

/-- Modelled from the spec: `BaseSpider.__init__`
(`base_spider.py` is not among the provided sources).  Per §4.1 it stores the
conference and year identifiers and performs no validation of its own. -/
structure BaseSpiderState where
  conference : String
  year : String
deriving DecidableEq

/-- Constructor of `NDSSSpider` (`ndss.py`, lines 10-13): the `conference`
argument defaults to `"ndss"`, the `year` argument defaults to `""`, and a
`ValueError` is raised when the year is empty.  `none` arguments model
omitted construction parameters. -/
def ndssInit (conference year : Option String) : Except String BaseSpiderState :=
  let c := conference.getD "ndss"
  let y := year.getD ""
  if y = "" then
    Except.error "The 'year' argument is required. Usage: scrapy crawl ndss -a year=YYYY"
  else
    Except.ok ⟨c, y⟩

/-- Constructor of `OsdiSpider` (`osdi.py`, lines 12-13): `conference`
defaults to `"osdi"`, `year` defaults to `"2023"`, and no check is made. -/
def osdiInit (conference year : Option String) : Except String BaseSpiderState :=
  Except.ok ⟨conference.getD "osdi", year.getD "2023"⟩

/-- Constructor of `UsenixSpider` (`usenix.py`, lines 16-17): `conference`
and `year` both default to `""`, and no check is made. -/
def usenixInit (conference year : Option String) : Except String BaseSpiderState :=
  Except.ok ⟨conference.getD "", year.getD ""⟩

/-! ## Adapter A: `NDSSSpider` (`ndss.py`) -/

/-- Callback designated by an NDSS follow-up request. -/
inductive NdssCb where
  | parseYearPageCb | parsePaperListCb | parsePaperDetailsCb
deriving DecidableEq

/-- An NDSS follow-up request: target URL, handling stage, carried meta
(a key-value mapping, as scrapy's `meta` dict). -/
structure NdssReq where
  url : String
  callback : NdssCb
  meta : List (String × String)
deriving DecidableEq

/-- A fetched page as `NDSSSpider` queries it: one field per XPath selector
appearing in `ndss.py`, holding that selector's result on this page.
`yearLink` is the result of the landing-page query for the spider's
configured year (the query text embeds `self.year`). -/
structure NdssPage where
  url : String
  /-- Meta dict of the request that produced this response. -/
  meta : List (String × String)
  /-- Landing: `//a[contains(@class,"wp-block-button__link") and normalize-space()=year]/@href`. -/
  yearLink : Option String
  /-- Year page: `//a[strong[contains(text(),"Accepted Papers")]]/@href`. -/
  acceptedPapersLink : Option String
  /-- List page, primary: `//a[@class="paper-link-abs"]/@href` (all). -/
  paperLinkAbsHrefs : List String
  /-- List page, fallback: `//a[strong[text()="Read More"]]/@href` (all). -/
  readMoreHrefs : List String
  /-- Detail: `//meta[@property="og:title"]/@content`. -/
  ogTitle : Option String
  /-- Detail: `//p/strong/text()` (first). -/
  pStrongText : Option String
  /-- Detail: `//p[@class="ndss_authors"]//text()` (all). -/
  ndssAuthorsTexts : List String
  /-- Detail: `//strong/following-sibling::p/text()` (all). -/
  strongSiblingPTexts : List String
  /-- Detail: `//h2[contains(text(),"Abstract")]/following-sibling::p/text()` (all). -/
  abstractH2PTexts : List String
  /-- Detail: `//a[contains(@class,"pdf-button")]/@href`. -/
  pdfButtonHref : Option String
  /-- Detail: `//p[@class="ndss_downloads"]//a/@href`. -/
  ndssDownloadsHref : Option String
deriving DecidableEq

/-- Python `'(' not in authors` where `authors` is a selector result:
raises `TypeError` when the result is `None`. -/
def pyNotInChar (c : Char) : Option String → Except String Bool
  | none => Except.error "TypeError: argument of type NoneType is not iterable"
  | some s => Except.ok (!charIn c s)

/-- The author-extraction step of `NDSSSpider.parse_paper_details`
(`ndss.py`, lines 95-98), with Python's short-circuit evaluation of
`not authors or NOT_IN_CHECK` made explicit: the membership check runs only
when the selector result is truthy. -/
def ndssAuthorsStep (a : Option String) (fallbackTexts : List String) :
    Except String String := do
  let cond ←
    if !truthyOpt a then pure true
    else pyNotInChar '(' a
  if cond then
    pure (pyStrip (pyReplace (String.join fallbackTexts) "Author(s):" ""))
  else
    pure (a.getD "")

/-- Pure value of `ndssAuthorsStep` (the step never raises; see
`ndssAuthorsStep_eq`). -/
def ndssAuthorsVal (a : Option String) (fallbackTexts : List String) : String :=
  if truthyOpt a && charIn '(' (a.getD "") then a.getD ""
  else pyStrip (pyReplace (String.join fallbackTexts) "Author(s):" "")

/-- `NDSSSpider.parse` (`ndss.py`, lines 20-39): find the configured year's
link on the landing page; follow it with `meta={'year': self.year}`, or log
an error and produce nothing. -/
def ndssParse (sp : BaseSpiderState) (page : NdssPage) :
    Except String (StageRes NdssReq) :=
  let l1 := logI ("Searching for year " ++ sp.year ++ " on " ++ page.url)
  let l2 := logD ("Year link found with primary XPat: " ++
    (page.yearLink.getD "None"))
  if truthyOpt page.yearLink then
    Except.ok
      { outs := [SOut.req
          { url := urljoin page.url (page.yearLink.getD ""),
            callback := NdssCb.parseYearPageCb,
            meta := [("year", sp.year)] }],
        logs := [l1, l2,
          logI ("Found link for " ++ sp.year ++ ": " ++ (page.yearLink.getD ""))] }
  else
    Except.ok
      { outs := [],
        logs := [l1, l2,
          logE ("Could not find a link for the year " ++ sp.year ++
            " on the main page.")] }

/-- `NDSSSpider.parse_paper_list` (`ndss.py`, lines 59-81): collect detail
links with the primary selector, retry with the legacy selector when empty,
and when still empty log an error and stop this branch; otherwise follow
every link, forwarding `response.meta`. -/
def ndssParsePaperList (page : NdssPage) : Except String (StageRes NdssReq) :=
  let l1 := logI ("Parsing paper list on " ++ page.url)
  let links := page.paperLinkAbsHrefs
  let fallbackLogs :=
    if links.isEmpty then
      [logI "Primary selector failed, trying fallback selector for older years."]
    else []
  let links := if links.isEmpty then page.readMoreHrefs else links
  if links.isEmpty then
    Except.ok
      { outs := [],
        logs := [l1] ++ fallbackLogs ++
          [logE ("Could not find any paper detail links on " ++ page.url ++
            ". Spider stopping.")] }
  else
    Except.ok
      { outs := links.map (fun l => SOut.req
          { url := urljoin page.url l,
            callback := NdssCb.parsePaperDetailsCb,
            meta := page.meta }),
        logs := [l1] ++ fallbackLogs ++
          [logI ("Found " ++ toString links.length ++ " paper links to follow.")] }

/-- `NDSSSpider.parse_year_page` (`ndss.py`, lines 41-56): follow the
"Accepted Papers" link when present (forwarding `response.meta`); otherwise
log a warning and delegate the same response to `parse_paper_list`. -/
def ndssParseYearPage (page : NdssPage) : Except String (StageRes NdssReq) := do
  let l1 := logI ("Searching for 'Accepted Papers' link on " ++ page.url)
  if truthyOpt page.acceptedPapersLink then
    pure
      { outs := [SOut.req
          { url := urljoin page.url (page.acceptedPapersLink.getD ""),
            callback := NdssCb.parsePaperListCb,
            meta := page.meta }],
        logs := [l1] }
  else do
    let r ← ndssParsePaperList page
    pure
      { outs := r.outs,
        logs := [l1,
          logW ("No 'Accepted Papers' link found on " ++ page.url ++
            ". Assuming this is the paper list page and proceeding.")] ++ r.logs }

/-- The record built by `NDSSSpider.parse_paper_details`
(`ndss.py`, lines 91-123), field by field as the source computes it. -/
def ndssDetailItem (page : NdssPage) : PdfFilesItem :=
  let abstractParts :=
    if page.strongSiblingPTexts.isEmpty then page.abstractH2PTexts
    else page.strongSiblingPTexts
  let abstract := String.intercalate " " (abstractParts.map pyStrip)
  let pdfOpt :=
    if truthyOpt page.pdfButtonHref then page.pdfButtonHref
    else page.ndssDownloadsHref
  let fullPdf :=
    if truthyOpt pdfOpt then urljoin page.url (pdfOpt.getD "") else ""
  { title :=
      if truthyOpt page.ogTitle then
        clean_quotes (pyStrip (pyReplace (page.ogTitle.getD "") "- NDSS Symposium" ""))
      else "",
    authors :=
      let a := ndssAuthorsVal page.pStrongText page.ndssAuthorsTexts
      if truthyStr a then pyStrip (clean_html_tags a) else "",
    abstract :=
      if truthyStr abstract then clean_extra_whitespaces abstract else "",
    abstract_url := page.url,
    pdf_url := fullPdf,
    file_urls := if truthyStr fullPdf then [fullPdf] else [],
    source_url := SourceTag.int 13 }

/-- `NDSSSpider.parse_paper_details` (`ndss.py`, lines 83-125): extract every
field with its fallback chain and emit one record.  The author extraction
step carries the one genuinely partial Python expression of the file. -/
def ndssParsePaperDetails (page : NdssPage) : Except String (StageRes NdssReq) := do
  let l1 := logI ("Extracting details from " ++ page.url)
  let authors ← ndssAuthorsStep page.pStrongText page.ndssAuthorsTexts
  let abstractParts :=
    if page.strongSiblingPTexts.isEmpty then page.abstractH2PTexts
    else page.strongSiblingPTexts
  let abstract := String.intercalate " " (abstractParts.map pyStrip)
  let pdfOpt :=
    if truthyOpt page.pdfButtonHref then page.pdfButtonHref
    else page.ndssDownloadsHref
  let fullPdf :=
    if truthyOpt pdfOpt then urljoin page.url (pdfOpt.getD "") else ""
  pure
    { outs := [SOut.item
        { title :=
            if truthyOpt page.ogTitle then
              clean_quotes (pyStrip (pyReplace (page.ogTitle.getD "") "- NDSS Symposium" ""))
            else "",
          authors := if truthyStr authors then pyStrip (clean_html_tags authors) else "",
          abstract := if truthyStr abstract then clean_extra_whitespaces abstract else "",
          abstract_url := page.url,
          pdf_url := fullPdf,
          file_urls := if truthyStr fullPdf then [fullPdf] else [],
          source_url := SourceTag.int 13 }],
      logs := [l1] }

/-! ## Adapter B: `OsdiSpider` (`osdi.py`) -/

/-- An OSDI follow-up request (`scrapy.Request(url=abs_url,
callback=self.parse_paper, dont_filter=True)`). -/
structure OsdiReq where
  url : String
deriving DecidableEq

/-- A fetched page as `OsdiSpider` queries it: one field per XPath selector
appearing in `osdi.py`. -/
structure OsdiPage where
  url : String
  /-- `//a[contains(@href,"/presentation") or contains(@href,"/presentations")]/@href` (all). -/
  presentationHrefs : List String
  /-- `//meta[@name="citation_title"]/@content`. -/
  citationTitle : Option String
  /-- `//meta[@name="citation_author"]/@content` (all). -/
  citationAuthors : List String
  /-- `//meta[@name="description"]/@content`. -/
  description : Option String
  /-- `//meta[@name="citation_pdf_url"]/@content`. -/
  citationPdfUrl : Option String
deriving DecidableEq

/-- The record built by `OsdiSpider.parse_paper` (`osdi.py`, lines 33-46),
field by field as the source computes it.  Note the source stores the
`citation_pdf_url` meta content verbatim (no `urljoin`) and stores
`response.url` into `source_url`. -/
def osdiPaperItem (page : OsdiPage) : PdfFilesItem :=
  { title :=
      if truthyOpt page.citationTitle then clean_html_tags (page.citationTitle.getD "")
      else "",
    authors :=
      if page.citationAuthors.isEmpty then ""
      else String.intercalate ", " page.citationAuthors,
    abstract :=
      if truthyOpt page.description then clean_html_tags (page.description.getD "")
      else "",
    abstract_url := page.url,
    pdf_url := if truthyOpt page.citationPdfUrl then page.citationPdfUrl.getD "" else "",
    file_urls :=
      if truthyOpt page.citationPdfUrl then [page.citationPdfUrl.getD ""] else [],
    source_url := SourceTag.str page.url }

/-- `OsdiSpider.parse_paper` (`osdi.py`, lines 33-46): read the four citation
meta tags and emit one record. -/
def osdiParsePaper (page : OsdiPage) : Except String (StageRes OsdiReq) :=
  Except.ok { outs := [SOut.item (osdiPaperItem page)], logs := [] }

/-- `OsdiSpider.parse` (`osdi.py`, lines 20-31): fan out one request per
presentation link (resolved against the page URL); with zero links, delegate
the same response to `parse_paper`. -/
def osdiParse (page : OsdiPage) : Except String (StageRes OsdiReq) := do
  let l1 := logI ("Successfully fetched page: " ++ page.url)
  if page.presentationHrefs.isEmpty then do
    let r ← osdiParsePaper page
    pure { outs := r.outs, logs := [l1] ++ r.logs }
  else
    pure
      { outs := page.presentationHrefs.map (fun l =>
          SOut.req { url := urljoin page.url l }),
        logs := [l1,
          logI ("Found " ++ toString page.presentationHrefs.length ++
            " research paper links")] }

/-! ## Adapter C: `UsenixSpider` (`usenix.py`) -/

/-- Carried context attached by `UsenixSpider.parse` to each follow-up
request (`meta={'title': ..., 'authors': ..., 'abstract': ...,
'abstract_url': ...}`), received by `parse_presentation` as `response.meta`. -/
structure UsenixMeta where
  title : String
  authors : String
  abstract : String
  abstract_url : String
deriving DecidableEq

/-- A USENIX follow-up request: target URL plus carried context. -/
structure UsenixReq where
  url : String
  meta : UsenixMeta
deriving DecidableEq

/-- One listing block (`//article[contains(@class,"node-paper")]`) as
`UsenixSpider.parse` queries it: one field per block-scoped selector. -/
structure UsenixBlock where
  /-- `.//h2/a/text()`. -/
  titleText : Option String
  /-- `.//h2/a/@href`. -/
  href : Option String
  /-- `.//div[contains(@class,"field-name-field-paper-people-text")]//p` (outer HTML). -/
  authorsHtml : Option String
  /-- `.//div[contains(@class,"field-name-field-paper-description-long")]//p` (outer HTML). -/
  abstractHtml : Option String
deriving DecidableEq

/-- A fetched page as `UsenixSpider` queries it. -/
structure UsenixPage where
  url : String
  status : Nat
  /-- `//article[contains(@class,"node-paper")]`, one entry per block. -/
  blocks : List UsenixBlock
  /-- `//meta[@name="citation_pdf_url"]/@content`. -/
  citationPdfUrl : Option String
  /-- `//div[contains(@class,"field-name-field-final-paper-pdf")]//a/@href`. -/
  finalPaperPdfHref : Option String
deriving DecidableEq

/-- The carried context `UsenixSpider.parse` builds for one block
(`usenix.py`, lines 48-71): title/authors/abstract cleaned from the block,
`abstract_url` the resolved detail link. -/
def usenixBlockMeta (pageUrl : String) (b : UsenixBlock) : UsenixMeta :=
  let authors :=
    match b.authorsHtml with
    | some h => selectorStringOf h
    | none => ""
  let abstract :=
    match b.abstractHtml with
    | some h => selectorStringOf h
    | none => ""
  { title := if truthyOpt b.titleText then clean_html_tags (b.titleText.getD "") else "",
    authors := if truthyStr authors then clean_html_tags authors else "",
    abstract := if truthyStr abstract then clean_html_tags abstract else "",
    abstract_url := urljoin pageUrl (b.href.getD "") }

/-- The contribution of one block to `UsenixSpider.parse`'s yielded stream
(`usenix.py`, lines 61-75): a follow-up request when the block has a detail
link, nothing otherwise. -/
def usenixBlockOut (pageUrl : String) (b : UsenixBlock) : Option (SOut UsenixReq) :=
  if truthyOpt b.href then
    some (SOut.req
      { url := urljoin pageUrl (b.href.getD ""), meta := usenixBlockMeta pageUrl b })
  else none

/-- The log lines of one block's processing in `UsenixSpider.parse`. -/
def usenixBlockLogs (b : UsenixBlock) : List LogEntry :=
  [logD ("Processing paper: " ++ (b.titleText.getD "None"))] ++
  (if truthyOpt b.href then
    [logI ("Following presentation URL: " ++ (b.href.getD ""))]
  else
    [logW ("No presentation URL found for paper: " ++ (b.titleText.getD "None"))])

/-- `UsenixSpider.parse` (`usenix.py`, lines 29-75): enumerate the paper
blocks; for each block with a detail link, follow it with the block's
carried context; a block without one is skipped with a warning. -/
def usenixParse (page : UsenixPage) : Except String (StageRes UsenixReq) :=
  let l1 := [logI ("Successfully fetched page: " ++ page.url),
    logI ("Response status: " ++ toString page.status),
    logI ("Found " ++ toString page.blocks.length ++ " paper blocks")]
  let emptyLogs :=
    if page.blocks.isEmpty then
      [logW "No papers found! Checking page structure..."]
    else []
  Except.ok
    { outs := page.blocks.filterMap (usenixBlockOut page.url),
      logs := l1 ++ emptyLogs ++ page.blocks.flatMap usenixBlockLogs }

/-- The record built by `UsenixSpider.parse_presentation`
(`usenix.py`, lines 92-99): carried context merged with the resolved PDF
link (or the empty string). -/
def usenixPresentationItem (page : UsenixPage) (m : UsenixMeta) : PdfFilesItem :=
  let pdf1 :=
    if truthyOpt page.citationPdfUrl then page.citationPdfUrl
    else page.finalPaperPdfHref
  let pdfFinal :=
    if truthyOpt pdf1 then some (urljoin page.url (pdf1.getD "")) else pdf1
  { title := m.title,
    authors := m.authors,
    abstract := m.abstract,
    abstract_url := m.abstract_url,
    pdf_url := if truthyOpt pdfFinal then pdfFinal.getD "" else "",
    file_urls := if truthyOpt pdfFinal then [pdfFinal.getD ""] else [],
    source_url := SourceTag.int 12 }

/-- `UsenixSpider.parse_presentation` (`usenix.py`, lines 77-102): resolve
the PDF link with its fallback chain and emit one record merging the carried
context. -/
def usenixParsePresentation (page : UsenixPage) (m : UsenixMeta) :
    Except String (StageRes UsenixReq) :=
  let pdf1 :=
    if truthyOpt page.citationPdfUrl then page.citationPdfUrl
    else page.finalPaperPdfHref
  let pdfLog :=
    if truthyOpt pdf1 then
      [logI ("Found PDF URL: " ++ urljoin page.url (pdf1.getD ""))]
    else
      [logW ("No PDF URL found for: " ++ page.url)]
  Except.ok
    { outs := [SOut.item (usenixPresentationItem page m)],
      logs := [logI ("Processing presentation page: " ++ page.url)] ++ pdfLog ++
        [logI ("Yielding item for: " ++ m.title)] }

/-! ## Concrete inputs used by witnesses and counterexamples -/

/-- A landing page with no anchor for the configured year. -/
def c5wPage : NdssPage :=
  { url := "https://www.ndss-symposium.org/previous-ndss-symposia/",
    meta := [], yearLink := none, acceptedPapersLink := none,
    paperLinkAbsHrefs := [], readMoreHrefs := [], ogTitle := none,
    pStrongText := none, ndssAuthorsTexts := [], strongSiblingPTexts := [],
    abstractH2PTexts := [], pdfButtonHref := none, ndssDownloadsHref := none }

/-- A spider state for witness runs. -/
def c5wSp : BaseSpiderState := ⟨"ndss", "2024"⟩

/-- A year page with no "Accepted Papers" anchor but with detail links. -/
def c6wPage : NdssPage :=
  { url := "https://www.ndss-symposium.org/ndss2024/",
    meta := [("year", "2024")], yearLink := none, acceptedPapersLink := none,
    paperLinkAbsHrefs := ["/ndss-paper/alpha/", "/ndss-paper/beta/"],
    readMoreHrefs := [], ogTitle := none, pStrongText := none,
    ndssAuthorsTexts := [], strongSiblingPTexts := [], abstractH2PTexts := [],
    pdfButtonHref := none, ndssDownloadsHref := none }

/-- A detail page whose title meta content holds the venue suffix in the
middle of the text rather than at its end. -/
def c7cPage : NdssPage :=
  { url := "https://www.ndss-symposium.org/ndss-paper/gamma/",
    meta := [], yearLink := none, acceptedPapersLink := none,
    paperLinkAbsHrefs := [], readMoreHrefs := [], 
    ogTitle := some "Alpha - NDSS Symposium Beta",
    pStrongText := none, ndssAuthorsTexts := [], strongSiblingPTexts := [],
    abstractH2PTexts := [], pdfButtonHref := none, ndssDownloadsHref := none }

/-- A detail page with an ordinary suffixed title carrying curly quotes. -/
def c7wPage : NdssPage :=
  { url := "https://www.ndss-symposium.org/ndss-paper/delta/",
    meta := [], yearLink := none, acceptedPapersLink := none,
    paperLinkAbsHrefs := [], readMoreHrefs := [], 
    ogTitle := some "“Smart” Fuzzing - NDSS Symposium",
    pStrongText := none, ndssAuthorsTexts := [], strongSiblingPTexts := [],
    abstractH2PTexts := [], pdfButtonHref := none, ndssDownloadsHref := none }

/-- First OSDI paper page of the `source_url` counterexample. -/
def c2cPage1 : OsdiPage :=
  { url := "https://www.usenix.org/conference/osdi23/presentation/alpha",
    presentationHrefs := [], citationTitle := some "Alpha",
    citationAuthors := ["Alice A."], description := some "About alpha.",
    citationPdfUrl := some "https://www.usenix.org/alpha.pdf" }

/-- Second OSDI paper page of the `source_url` counterexample. -/
def c2cPage2 : OsdiPage :=
  { url := "https://www.usenix.org/conference/osdi23/presentation/beta",
    presentationHrefs := [], citationTitle := some "Beta",
    citationAuthors := ["Bob B."], description := some "About beta.",
    citationPdfUrl := some "https://www.usenix.org/beta.pdf" }

/-- An OSDI paper page whose `citation_pdf_url` meta content is relative. -/
def c3cPage : OsdiPage :=
  { url := "https://www.usenix.org/conference/osdi23/presentation/gamma",
    presentationHrefs := [], citationTitle := some "Gamma",
    citationAuthors := [], description := none,
    citationPdfUrl := some "files/osdi23-gamma.pdf" }

/-- An NDSS detail page with a relative PDF-button link, for the amended
resolution claim. -/
def c3wNdss : NdssPage :=
  { url := "https://www.ndss-symposium.org/ndss-paper/eps/",
    meta := [], yearLink := none, acceptedPapersLink := none,
    paperLinkAbsHrefs := [], readMoreHrefs := [], ogTitle := none,
    pStrongText := none, ndssAuthorsTexts := [], strongSiblingPTexts := [],
    abstractH2PTexts := [], pdfButtonHref := some "/wp-content/eps.pdf",
    ndssDownloadsHref := none }

/-- A USENIX presentation page with a relative final-paper link, for the
amended resolution claim. -/
def c3wUsenix : UsenixPage :=
  { url := "https://www.usenix.org/conference/usenixsecurity24/presentation/zeta",
    status := 200, blocks := [], citationPdfUrl := none,
    finalPaperPdfHref := some "zeta-final.pdf" }

/-- Carried context for witness runs of `parse_presentation`. -/
def c3wMeta : UsenixMeta :=
  ⟨"Zeta", "Zoe Z.", "About zeta.",
    "https://www.usenix.org/conference/usenixsecurity24/presentation/zeta"⟩

/-- An OSDI session page with zero presentation links but citation tags. -/
def c8wPage : OsdiPage :=
  { url := "https://www.usenix.org/conference/osdi23/presentation/eta",
    presentationHrefs := [], citationTitle := some "Eta",
    citationAuthors := ["Eve E.", "Frank F."], description := some "About eta.",
    citationPdfUrl := some "https://www.usenix.org/eta.pdf" }

/-- A USENIX listing block with a detail link but no description container. -/
def c9wBlock : UsenixBlock :=
  { titleText := some "Theta Attacks",
    href := some "/conference/usenixsecurity24/presentation/theta",
    authorsHtml := some "<p>Thea T.</p>", abstractHtml := none }

/-- A USENIX listing block with no detail link. -/
def c9wBadBlock : UsenixBlock :=
  { titleText := some "Iota", href := none,
    authorsHtml := some "<p>Ian I.</p>", abstractHtml := some "<p>About iota.</p>" }

/-- A USENIX detail page for the carried-context witness. -/
def c9wDetail : UsenixPage :=
  { url := "https://www.usenix.org/conference/usenixsecurity24/presentation/theta",
    status := 200, blocks := [], citationPdfUrl := none, finalPaperPdfHref := none }

/-- The listing page URL used by the C9 witness. -/
def c9wUrl : String := "https://www.usenix.org/conference/usenixsecurity24/summer-accepted-papers"

/-- The title transform exactly as claim C7 words it: the tag's content with
a TRAILING venue suffix removed, surrounding whitespace stripped, and curly
quotes normalized (a spec-side definition, for comparison with the code). -/
def ndssTitleClaimTransform (content : String) : String :=
  let sfx := "- NDSS Symposium"
  let base :=
    if sfx.data.reverse.isPrefixOf content.data.reverse then
      (⟨content.data.take (content.data.length - sfx.data.length)⟩ : String)
    else content
  clean_quotes (pyStrip base)

/-- Consistency predicate of claim C1 on one record: `file_urls` is the
one-element sequence containing `pdf_url` when that is non-empty, and empty
otherwise. -/
def fileUrlsOk (it : PdfFilesItem) : Bool :=
  it.file_urls == (if it.pdf_url == "" then ([] : List String) else [it.pdf_url])

/-! ## Helper lemmas -/

theorem isPrefixOf_append_self (l t : List Char) : l.isPrefixOf (l ++ t) = true := by
  induction l with
  | nil => simp [List.isPrefixOf]
  | cons c cs ih => simp [List.isPrefixOf, ih]

theorem strStarts_self_append (p t : String) : strStarts p (p ++ t) = true := by
  unfold strStarts
  rw [String.data_append]
  exact isPrefixOf_append_self p.data t.data

theorem strStarts_append2 (p x r : String) : strStarts p ((p ++ x) ++ r) = true := by
  unfold strStarts
  rw [String.data_append, String.data_append, List.append_assoc]
  exact isPrefixOf_append_self p.data (x.data ++ r.data)

theorem isHttpAbsolute_https_append (x : String) :
    isHttpAbsolute ("https://" ++ x) = true := by
  unfold isHttpAbsolute
  rw [strStarts_self_append]
  simp

theorem isHttpAbsolute_http_append (x : String) :
    isHttpAbsolute ("http://" ++ x) = true := by
  unfold isHttpAbsolute
  rw [strStarts_self_append]
  simp

theorem isHttpAbsolute_https_append2 (x r : String) :
    isHttpAbsolute (("https://" ++ x) ++ r) = true := by
  unfold isHttpAbsolute
  rw [strStarts_append2]
  simp

theorem isHttpAbsolute_http_append2 (x r : String) :
    isHttpAbsolute (("http://" ++ x) ++ r) = true := by
  unfold isHttpAbsolute
  rw [strStarts_append2]
  simp

/-- Resolution against an absolute `http(s)` base always yields an absolute
`http(s)` URL. -/
theorem urljoin_abs (base rel : String) (hb : isHttpAbsolute base = true) :
    isHttpAbsolute (urljoin base rel) = true := by
  by_cases hs : strStarts "https://" base = true
  · have hSch : schemeOf base = "https" := by simp [schemeOf, hs]
    have hSH : schemeHostOf base = "https://" ++ takeUntilSlashStr (strDrop base 8) := by
      simp [schemeHostOf, hs]
    have hD : dirOf base = "https://" ++ upToLastSlash (strDrop base 8) := by
      simp [dirOf, hs]
    unfold urljoin
    by_cases h0 : rel = ""
    · simp [h0, hb]
    · by_cases h1 : isHttpAbsolute rel = true
      · simp [h0, h1]
      · by_cases h2 : strStarts "//" rel = true
        · have hne : schemeOf base ≠ "" := by rw [hSch]; decide
          simp only [h0, h1, h2, if_true, if_false, ite_false, ite_true,
            Bool.false_eq_true, if_neg hne]
          rw [hSch]
          have e : ("https" ++ "://" : String) = "https://" := by decide
          rw [e]
          exact isHttpAbsolute_https_append _
        · by_cases h3 : strStarts "/" rel = true
          · simp only [h0, h1, h2, h3, if_true, if_false, ite_false, ite_true,
              Bool.false_eq_true]
            rw [hSH]
            exact isHttpAbsolute_https_append2 _ _
          · simp only [h0, h1, h2, h3, if_true, if_false, ite_false, ite_true,
              Bool.false_eq_true]
            rw [hD]
            exact isHttpAbsolute_https_append2 _ _
  · have hh : strStarts "http://" base = true := by
      unfold isHttpAbsolute at hb
      rcases Bool.or_eq_true_iff.mp hb with h | h
      · exact h
      · exact absurd h hs
    have hs' : strStarts "https://" base = false := by
      cases hv : strStarts "https://" base
      · rfl
      · exact absurd hv hs
    have hSch : schemeOf base = "http" := by simp [schemeOf, hs', hh]
    have hSH : schemeHostOf base = "http://" ++ takeUntilSlashStr (strDrop base 7) := by
      simp [schemeHostOf, hs', hh]
    have hD : dirOf base = "http://" ++ upToLastSlash (strDrop base 7) := by
      simp [dirOf, hs', hh]
    unfold urljoin
    by_cases h0 : rel = ""
    · simp [h0, hb]
    · by_cases h1 : isHttpAbsolute rel = true
      · simp [h0, h1]
      · by_cases h2 : strStarts "//" rel = true
        · have hne : schemeOf base ≠ "" := by rw [hSch]; decide
          simp only [h0, h1, h2, if_true, if_false, ite_false, ite_true,
            Bool.false_eq_true, if_neg hne]
          rw [hSch]
          have e : ("http" ++ "://" : String) = "http://" := by decide
          rw [e]
          exact isHttpAbsolute_http_append _
        · by_cases h3 : strStarts "/" rel = true
          · simp only [h0, h1, h2, h3, if_true, if_false, ite_false, ite_true,
              Bool.false_eq_true]
            rw [hSH]
            exact isHttpAbsolute_http_append2 _ _
          · simp only [h0, h1, h2, h3, if_true, if_false, ite_false, ite_true,
              Bool.false_eq_true]
            rw [hD]
            exact isHttpAbsolute_http_append2 _ _

/-- The author-extraction step never raises: Python's short-circuit `or`
guards the membership test, so the step computes `ndssAuthorsVal`. -/
theorem ndssAuthorsStep_eq (a : Option String) (ts : List String) :
    ndssAuthorsStep a ts = Except.ok (ndssAuthorsVal a ts) := by
  match a with
  | none => rfl
  | some s =>
    by_cases h : s = ""
    · subst h; rfl
    · by_cases hc : charIn '(' s
      · simp [ndssAuthorsStep, ndssAuthorsVal, truthyOpt, truthyStr, pyNotInChar,
          bne, h, hc, pure, Except.pure, Bind.bind, Except.bind]
      · simp [ndssAuthorsStep, ndssAuthorsVal, truthyOpt, truthyStr, pyNotInChar,
          bne, h, hc, pure, Except.pure, Bind.bind, Except.bind]

/-- `parse_paper_details` completes on every page and emits exactly the
record `ndssDetailItem`. -/
theorem ndssParsePaperDetails_eq (page : NdssPage) :
    ndssParsePaperDetails page = Except.ok
      { outs := [SOut.item (ndssDetailItem page)],
        logs := [logI ("Extracting details from " ++ page.url)] } := by
  unfold ndssParsePaperDetails ndssDetailItem
  rw [ndssAuthorsStep_eq]
  rfl

/-- Record shape of the NDSS detail stage satisfies the `file_urls` contract. -/
theorem fileUrlsOk_mk (t a ab au F : String) (st : SourceTag) :
    fileUrlsOk
      { title := t, authors := a, abstract := ab, abstract_url := au,
        pdf_url := F, file_urls := (if truthyStr F then [F] else []),
        source_url := st } = true := by
  unfold fileUrlsOk
  by_cases h : F = "" <;> simp [truthyStr, h, bne]

/-- Record shape of the OSDI and USENIX detail stages satisfies the
`file_urls` contract. -/
theorem fileUrlsOk_opt (t a ab au : String) (o : Option String) (st : SourceTag) :
    fileUrlsOk
      { title := t, authors := a, abstract := ab, abstract_url := au,
        pdf_url := (if truthyOpt o then o.getD "" else ""),
        file_urls := (if truthyOpt o then [o.getD ""] else []),
        source_url := st } = true := by
  cases o with
  | none => simp [fileUrlsOk, truthyOpt]
  | some s =>
    by_cases h : s = "" <;> simp [fileUrlsOk, truthyOpt, truthyStr, h, bne]

/-- PDF resolution of the NDSS detail stage: empty or absolute. -/
theorem pdfAbsOptHelper (base : String) (o : Option String)
    (hb : isHttpAbsolute base = true) :
    (((if truthyOpt o then urljoin base (o.getD "") else "") == "") ||
      isHttpAbsolute (if truthyOpt o then urljoin base (o.getD "") else "")) = true := by
  by_cases h : truthyOpt o = true
  · simp only [h, if_true, ite_true]
    rw [urljoin_abs base (o.getD "") hb]
    simp
  · simp only [Bool.not_eq_true] at h
    simp [h]

/-- PDF resolution of the USENIX presentation stage: empty or absolute. -/
theorem pdfAbsOptHelper2 (base : String) (o : Option String)
    (hb : isHttpAbsolute base = true) :
    (((if truthyOpt (if truthyOpt o then some (urljoin base (o.getD "")) else o)
        then (if truthyOpt o then some (urljoin base (o.getD "")) else o).getD ""
        else "") == "") ||
      isHttpAbsolute
        (if truthyOpt (if truthyOpt o then some (urljoin base (o.getD "")) else o)
          then (if truthyOpt o then some (urljoin base (o.getD "")) else o).getD ""
          else "")) = true := by
  by_cases h : truthyOpt o = true
  · simp only [h, if_true, ite_true, Option.getD_some]
    by_cases h2 : truthyStr (urljoin base (o.getD "")) = true
    · simp only [truthyOpt, h2, ite_true]
      rw [urljoin_abs base (o.getD "") hb]
      simp
    · simp only [Bool.not_eq_true] at h2
      simp [truthyOpt, h2]
  · simp only [Bool.not_eq_true] at h
    simp [h]

/-! ## Claim theorems -/

/-- Claim C1: for every fetched page handled by any of the three adapters'
detail-stage operations, every emitted record has `file_urls` non-empty iff
`pdf_url` is non-empty, and when non-empty, `file_urls` is exactly the
one-element sequence containing `pdf_url` (here: `file_urls` always equals
the empty list when `pdf_url` is empty and `[pdf_url]` otherwise). -/
theorem c1_file_urls_consistent :
    (∀ p : NdssPage,
      ((itemsOf (ndssParsePaperDetails p)).all fileUrlsOk) = true) ∧
    (∀ q : OsdiPage,
      ((itemsOf (osdiParsePaper q)).all fileUrlsOk) = true) ∧
    (∀ (r : UsenixPage) (m : UsenixMeta),
      ((itemsOf (usenixParsePresentation r m)).all fileUrlsOk) = true) := by
  refine ⟨fun p => ?_, fun q => ?_, fun r m => ?_⟩
  · rw [ndssParsePaperDetails_eq]
    simp only [itemsOf, outsOf, List.filterMap, List.all, Bool.and_true]
    unfold ndssDetailItem
    exact fileUrlsOk_mk _ _ _ _ _ _
  · simp only [osdiParsePaper, itemsOf, outsOf, List.filterMap, List.all, Bool.and_true]
    unfold osdiPaperItem
    exact fileUrlsOk_opt _ _ _ _ _ _
  · simp only [usenixParsePresentation, itemsOf, outsOf, List.filterMap, List.all,
      Bool.and_true]
    unfold usenixPresentationItem
    exact fileUrlsOk_opt _ _ _ _ _ _

/-- Claim C2 counterexample: `OsdiSpider.parse_paper` stores the fetched
page's URL into `source_url`, so two records emitted by the same adapter on
two different pages carry two different `source_url` values (and each value
is the derived page URL). -/
theorem c2_counterexample :
    (itemsOf (osdiParsePaper c2cPage1)).map (fun it => it.source_url) =
      [SourceTag.str "https://www.usenix.org/conference/osdi23/presentation/alpha"] ∧
    (itemsOf (osdiParsePaper c2cPage2)).map (fun it => it.source_url) =
      [SourceTag.str "https://www.usenix.org/conference/osdi23/presentation/beta"] ∧
    (itemsOf (osdiParsePaper c2cPage1)).map (fun it => it.source_url) ≠
      (itemsOf (osdiParsePaper c2cPage2)).map (fun it => it.source_url) := by
  refine ⟨by decide, by decide, by decide⟩

/-- Claim C2 (amended): the NDSS and USENIX adapters store the constant
adapter tags 13 and 12 into `source_url`, but the OSDI adapter stores the
fetched page's URL there, a derived value that varies across pages. -/
theorem c2_amended_source_tags :
    (∀ p : NdssPage,
      (itemsOf (ndssParsePaperDetails p)).map (fun it => it.source_url) =
        [SourceTag.int 13]) ∧
    (∀ (r : UsenixPage) (m : UsenixMeta),
      (itemsOf (usenixParsePresentation r m)).map (fun it => it.source_url) =
        [SourceTag.int 12]) ∧
    (∀ q : OsdiPage,
      (itemsOf (osdiParsePaper q)).map (fun it => it.source_url) =
        [SourceTag.str q.url]) := by
  refine ⟨fun p => ?_, fun r m => ?_, fun q => ?_⟩
  · rw [ndssParsePaperDetails_eq]
    simp [itemsOf, outsOf, ndssDetailItem]
  · simp [usenixParsePresentation, itemsOf, outsOf, usenixPresentationItem]
  · simp [osdiParsePaper, itemsOf, outsOf, osdiPaperItem]

/-- Claim C3 counterexample: on an OSDI paper page whose `citation_pdf_url`
meta content is a relative path, the emitted `pdf_url` is that relative path
verbatim: non-empty and not an absolute URL, although the page URL is
absolute. -/
theorem c3_counterexample :
    (itemsOf (osdiParsePaper c3cPage)).map (fun it => it.pdf_url) =
      ["files/osdi23-gamma.pdf"] ∧
    isHttpAbsolute "files/osdi23-gamma.pdf" = false ∧
    isHttpAbsolute c3cPage.url = true := by
  refine ⟨by decide, by decide, by decide⟩

/-- Claim C3 (amended): the NDSS and USENIX detail stages emit a `pdf_url`
that is either empty or resolved against the page URL (hence absolute
whenever the page URL is absolute); the OSDI detail stage emits the
`citation_pdf_url` meta content verbatim (defaulting to empty), without
resolution, so it is absolute only when the tag content already is. -/
theorem c3_amended_pdf_resolution :
    (∀ p : NdssPage, isHttpAbsolute p.url = true →
      ((itemsOf (ndssParsePaperDetails p)).all
        (fun it => (it.pdf_url == "") || isHttpAbsolute it.pdf_url)) = true) ∧
    (∀ (r : UsenixPage) (m : UsenixMeta), isHttpAbsolute r.url = true →
      ((itemsOf (usenixParsePresentation r m)).all
        (fun it => (it.pdf_url == "") || isHttpAbsolute it.pdf_url)) = true) ∧
    (∀ q : OsdiPage,
      ((itemsOf (osdiParsePaper q)).all
        (fun it => it.pdf_url == q.citationPdfUrl.getD "")) = true) := by
  refine ⟨fun p hp => ?_, fun r m hr => ?_, fun q => ?_⟩
  · rw [ndssParsePaperDetails_eq]
    simp only [itemsOf, outsOf, List.filterMap, List.all, Bool.and_true]
    unfold ndssDetailItem
    exact pdfAbsOptHelper p.url _ hp
  · simp only [usenixParsePresentation, itemsOf, outsOf, List.filterMap, List.all,
      Bool.and_true]
    unfold usenixPresentationItem
    exact pdfAbsOptHelper2 r.url _ hr
  · simp only [osdiParsePaper, itemsOf, outsOf, List.filterMap, List.all, Bool.and_true]
    unfold osdiPaperItem
    cases ho : q.citationPdfUrl with
    | none => simp [truthyOpt]
    | some s =>
      by_cases h : s = "" <;> simp [truthyOpt, truthyStr, h, bne]

/-- Claim C3 (amended) witness: the amended statement applied to a concrete
NDSS detail page and a concrete USENIX presentation page, both with absolute
page URLs and relative extracted PDF links. -/
theorem c3_amended_pdf_resolution_witness :
    ((itemsOf (ndssParsePaperDetails c3wNdss)).all
      (fun it => (it.pdf_url == "") || isHttpAbsolute it.pdf_url)) = true ∧
    ((itemsOf (usenixParsePresentation c3wUsenix c3wMeta)).all
      (fun it => (it.pdf_url == "") || isHttpAbsolute it.pdf_url)) = true :=
  ⟨c3_amended_pdf_resolution.1 c3wNdss (by decide),
   c3_amended_pdf_resolution.2.1 c3wUsenix c3wMeta (by decide)⟩

/-- Claim C4: every handle-stage operation of every adapter is total on
arbitrary fetched-page content: the embedded handler, whose error channel
marks exactly the points where the Python could raise, returns `ok` on every
page (and every carried context). -/
theorem c4_handlers_total :
    (∀ (sp : BaseSpiderState) (p : NdssPage), exceptOk (ndssParse sp p) = true) ∧
    (∀ p : NdssPage, exceptOk (ndssParseYearPage p) = true) ∧
    (∀ p : NdssPage, exceptOk (ndssParsePaperList p) = true) ∧
    (∀ p : NdssPage, exceptOk (ndssParsePaperDetails p) = true) ∧
    (∀ q : OsdiPage, exceptOk (osdiParse q) = true) ∧
    (∀ q : OsdiPage, exceptOk (osdiParsePaper q) = true) ∧
    (∀ r : UsenixPage, exceptOk (usenixParse r) = true) ∧
    (∀ (r : UsenixPage) (m : UsenixMeta),
      exceptOk (usenixParsePresentation r m) = true) := by
  refine ⟨fun sp p => ?_, fun p => ?_, fun p => ?_, fun p => ?_,
    fun q => ?_, fun q => ?_, fun r => ?_, fun r m => ?_⟩
  · unfold ndssParse
    by_cases h : truthyOpt p.yearLink = true <;> simp [h, exceptOk]
  · unfold ndssParseYearPage ndssParsePaperList
    by_cases h : truthyOpt p.acceptedPapersLink = true
    · simp [h, exceptOk, pure, Except.pure]
    · by_cases h1 : p.paperLinkAbsHrefs = [] <;> by_cases h2 : p.readMoreHrefs = [] <;>
        simp [h, h1, h2, exceptOk, pure, Except.pure, Bind.bind, Except.bind]
  · unfold ndssParsePaperList
    by_cases h1 : p.paperLinkAbsHrefs = [] <;> by_cases h2 : p.readMoreHrefs = [] <;>
      simp [h1, h2, exceptOk]
  · rw [ndssParsePaperDetails_eq]; rfl
  · unfold osdiParse osdiParsePaper
    by_cases h : q.presentationHrefs = [] <;>
      simp [h, exceptOk, pure, Except.pure, Bind.bind, Except.bind]
  · rfl
  · rfl
  · rfl

/-- Claim C5: on a landing page with no anchor matching the configured year,
`NDSSSpider.parse` yields zero follow-up requests and zero records, logs an
error, and raises no exception. -/
theorem c5_no_year_link (sp : BaseSpiderState) (p : NdssPage)
    (h : p.yearLink = none) :
    outsOf (ndssParse sp p) = [] ∧
    hasErrorLog (logsOf (ndssParse sp p)) = true ∧
    exceptOk (ndssParse sp p) = true := by
  unfold ndssParse
  simp [h, truthyOpt, outsOf, logsOf, exceptOk, hasErrorLog, logI, logD, logE,
    List.any]
  decide

/-- Claim C5 witness: the statement at a concrete landing page without the
configured year's anchor. -/
theorem c5_no_year_link_witness :
    outsOf (ndssParse c5wSp c5wPage) = [] ∧
    hasErrorLog (logsOf (ndssParse c5wSp c5wPage)) = true ∧
    exceptOk (ndssParse c5wSp c5wPage) = true :=
  c5_no_year_link c5wSp c5wPage rfl

/-- Claim C6: on a year page with no "Accepted Papers" anchor,
`NDSSSpider.parse_year_page` yields exactly what `parse_paper_list` yields
on that same page. -/
theorem c6_year_page_fallback (p : NdssPage) (h : p.acceptedPapersLink = none) :
    outsOf (ndssParseYearPage p) = outsOf (ndssParsePaperList p) := by
  unfold ndssParseYearPage
  rw [h]
  cases hres : ndssParsePaperList p with
  | ok r => simp [hres, outsOf, truthyOpt, Bind.bind, Except.bind, pure, Except.pure]
  | error e => simp [hres, outsOf, truthyOpt, Bind.bind, Except.bind]

/-- Claim C6 witness: the statement at a concrete year page without an
"Accepted Papers" anchor but with paper links. -/
theorem c6_year_page_fallback_witness :
    outsOf (ndssParseYearPage c6wPage) = outsOf (ndssParsePaperList c6wPage) :=
  c6_year_page_fallback c6wPage rfl

/-- Claim C7 counterexample: the code removes EVERY occurrence of the
substring `- NDSS Symposium`, not only a trailing suffix.  On a title meta
content holding the venue string mid-text, the emitted title differs from
the claim's transform (trailing-suffix removal, quote normalization,
whitespace stripping), which leaves that content unchanged. -/
theorem c7_counterexample :
    (itemsOf (ndssParsePaperDetails c7cPage)).map (fun it => it.title) =
      ["Alpha  Beta"] ∧
    ndssTitleClaimTransform "Alpha - NDSS Symposium Beta" =
      "Alpha - NDSS Symposium Beta" ∧
    ("Alpha  Beta" : String) ≠ "Alpha - NDSS Symposium Beta" := by
  refine ⟨by decide, by decide, by decide⟩

/-- Claim C7 (amended): when the title meta tag is present with non-empty
content, the emitted title is the content with every occurrence of the
substring `- NDSS Symposium` removed, then whitespace-stripped, then
quote-normalized; an absent tag (or empty content) yields the empty title. -/
theorem c7_amended_title :
    (∀ (p : NdssPage) (t : String), p.ogTitle = some t →
      (itemsOf (ndssParsePaperDetails p)).map (fun it => it.title) =
        [if t = "" then ""
         else clean_quotes (pyStrip (pyReplace t "- NDSS Symposium" ""))]) ∧
    (∀ p : NdssPage, p.ogTitle = none →
      (itemsOf (ndssParsePaperDetails p)).map (fun it => it.title) = [""]) := by
  constructor
  · intro p t h
    rw [ndssParsePaperDetails_eq]
    by_cases ht : t = "" <;>
      simp [itemsOf, outsOf, ndssDetailItem, h, ht, truthyOpt, truthyStr, bne]
  · intro p h
    rw [ndssParsePaperDetails_eq]
    simp [itemsOf, outsOf, ndssDetailItem, h, truthyOpt]

/-- Claim C7 (amended) witness: the transform at a concrete detail page
whose title carries curly quotes and the trailing venue suffix. -/
theorem c7_amended_title_witness :
    (itemsOf (ndssParsePaperDetails c7wPage)).map (fun it => it.title) =
      [if ("“Smart” Fuzzing - NDSS Symposium" : String) = "" then ""
       else clean_quotes
         (pyStrip (pyReplace "“Smart” Fuzzing - NDSS Symposium" "- NDSS Symposium" ""))] :=
  c7_amended_title.1 c7wPage "“Smart” Fuzzing - NDSS Symposium" rfl

/-- Claim C8: on a session page with zero presentation links,
`OsdiSpider.parse` produces no follow-up requests and yields exactly the
records `parse_paper` yields on that same page. -/
theorem c8_session_self_parse (q : OsdiPage) (h : q.presentationHrefs = []) :
    outsOf (osdiParse q) = outsOf (osdiParsePaper q) ∧
    reqsOf (osdiParse q) = [] ∧
    itemsOf (osdiParse q) = [osdiPaperItem q] := by
  unfold osdiParse osdiParsePaper
  simp [h, outsOf, reqsOf, itemsOf, Bind.bind, Except.bind, pure, Except.pure]

/-- Claim C8 witness: the statement at a concrete session page without
presentation links. -/
theorem c8_session_self_parse_witness :
    outsOf (osdiParse c8wPage) = outsOf (osdiParsePaper c8wPage) ∧
    reqsOf (osdiParse c8wPage) = [] ∧
    itemsOf (osdiParse c8wPage) = [osdiPaperItem c8wPage] :=
  c8_session_self_parse c8wPage rfl

/-- Claim C9: a listing block with a detail link but no description-field
container produces a follow-up request whose carried context has an empty
abstract while title and authors are the cleaned block values; the record
later emitted from that context by `parse_presentation` keeps the empty
abstract and the carried title/authors; a block with no detail link
contributes nothing; and a page's yielded stream is the blockwise
concatenation, so the other blocks are processed normally. -/
theorem c9_block_context :
    (∀ (u : String) (b : UsenixBlock), truthyOpt b.href = true →
      b.abstractHtml = none →
      (usenixBlockMeta u b).abstract = "" ∧
      (usenixBlockMeta u b).title =
        (if truthyOpt b.titleText then clean_html_tags (b.titleText.getD "")
         else "") ∧
      (usenixBlockMeta u b).authors =
        (if truthyStr (match b.authorsHtml with
            | some ah => selectorStringOf ah
            | none => "") then
          clean_html_tags (match b.authorsHtml with
            | some ah => selectorStringOf ah
            | none => "")
         else "") ∧
      usenixBlockOut u b = some (SOut.req
        { url := urljoin u (b.href.getD ""), meta := usenixBlockMeta u b }) ∧
      (∀ dp : UsenixPage,
        itemsOf (usenixParsePresentation dp (usenixBlockMeta u b)) =
          [usenixPresentationItem dp (usenixBlockMeta u b)] ∧
        (usenixPresentationItem dp (usenixBlockMeta u b)).abstract = "" ∧
        (usenixPresentationItem dp (usenixBlockMeta u b)).title =
          (usenixBlockMeta u b).title ∧
        (usenixPresentationItem dp (usenixBlockMeta u b)).authors =
          (usenixBlockMeta u b).authors)) ∧
    (∀ (u : String) (b : UsenixBlock), b.href = none →
      usenixBlockOut u b = none) ∧
    (∀ p : UsenixPage,
      outsOf (usenixParse p) = p.blocks.filterMap (usenixBlockOut p.url)) ∧
    (∀ (u : String) (pre post : List UsenixBlock) (b : UsenixBlock),
      b.href = none →
      (pre ++ b :: post).filterMap (usenixBlockOut u) =
        (pre ++ post).filterMap (usenixBlockOut u)) := by
  refine ⟨fun u b hh ha => ?_, fun u b hh => ?_, fun p => ?_,
    fun u pre post b hh => ?_⟩
  · refine ⟨?_, rfl, rfl, ?_, fun dp => ⟨rfl, ?_, rfl, rfl⟩⟩
    · simp [usenixBlockMeta, ha, truthyStr]
    · simp [usenixBlockOut, hh]
    · simp [usenixPresentationItem, usenixBlockMeta, ha, truthyStr]
  · simp [usenixBlockOut, hh, truthyOpt]
  · rfl
  · simp [List.filterMap_append, usenixBlockOut, hh, truthyOpt]

/-- Claim C9 witness: the statement at a concrete listing block with a
detail link and no description container, a concrete detail page, and a
concrete link-less block spliced between two good blocks. -/
theorem c9_block_context_witness :
    (usenixBlockMeta c9wUrl c9wBlock).abstract = "" ∧
    usenixBlockOut c9wUrl c9wBlock = some (SOut.req
      { url := urljoin c9wUrl (c9wBlock.href.getD ""),
        meta := usenixBlockMeta c9wUrl c9wBlock }) ∧
    (usenixPresentationItem c9wDetail (usenixBlockMeta c9wUrl c9wBlock)).abstract
      = "" ∧
    (usenixPresentationItem c9wDetail (usenixBlockMeta c9wUrl c9wBlock)).title
      = (usenixBlockMeta c9wUrl c9wBlock).title ∧
    usenixBlockOut c9wUrl c9wBadBlock = none ∧
    ([c9wBlock] ++ c9wBadBlock :: [c9wBlock]).filterMap (usenixBlockOut c9wUrl) =
      ([c9wBlock] ++ [c9wBlock]).filterMap (usenixBlockOut c9wUrl) :=
  ⟨(c9_block_context.1 c9wUrl c9wBlock (by decide) rfl).1,
   (c9_block_context.1 c9wUrl c9wBlock (by decide) rfl).2.2.2.1,
   ((c9_block_context.1 c9wUrl c9wBlock (by decide) rfl).2.2.2.2 c9wDetail).2.1,
   ((c9_block_context.1 c9wUrl c9wBlock (by decide) rfl).2.2.2.2 c9wDetail).2.2.1,
   c9_block_context.2.1 c9wUrl c9wBadBlock rfl,
   c9_block_context.2.2.2 c9wUrl [c9wBlock] [c9wBlock] c9wBadBlock rfl⟩

/-- Claim C10: constructing the NDSS adapter raises a configuration error
iff the year is missing or empty; the OSDI and USENIX adapters default the
year (`"2023"` and `""`) and never raise. -/
theorem c10_construction :
    (∀ conference year : Option String,
      exceptOk (ndssInit conference year) = (year.getD "" != "")) ∧
    (∀ conference year : Option String,
      exceptOk (osdiInit conference year) = true) ∧
    (∀ conference year : Option String,
      exceptOk (usenixInit conference year) = true) ∧
    (∀ conference : Option String,
      osdiInit conference none = Except.ok ⟨conference.getD "osdi", "2023"⟩ ∧
      usenixInit conference none = Except.ok ⟨conference.getD "", ""⟩) := by
  refine ⟨fun c y => ?_, fun c y => rfl, fun c y => rfl, fun c => ⟨rfl, rfl⟩⟩
  unfold ndssInit
  by_cases h : y.getD "" = "" <;> simp [h, exceptOk, bne]
